import Mathlib

/-
Verification development for the transport-binding layer of pysaml2
(files src/saml2/pack.py and src/saml2/httpbase.py).

Python strings are modelled as lists of characters (type Str below);
Python string primitives (find, rfind, slicing, replace, join) are given
faithful executable models.  External collaborators (the ElementTree
serializer, requests, urllib, the deflate/base64 codec) are modelled from
the spec's description of their contracts where their behaviour matters,
and abstracted as function parameters where it does not.
-/

set_option autoImplicit false

namespace Saml2Pack

/-- Python strings, modelled as lists of characters. -/
abbrev Str := List Char

/-- Does the string s start with the pattern p (Python str.startswith)? -/
def startsW : Str → Str → Bool
  | [], _ => true
  | _ :: _, [] => false
  | p :: ps, s :: ss => p == s && startsW ps ss

/-- Does the string s end with the pattern p (Python str.endswith)? -/
def endsW (p s : Str) : Bool := startsW p.reverse s.reverse

/-- Index of the first occurrence of pat in s, none when absent
(Python str.find, with -1 modelled as none). -/
def findIdx (pat : Str) : Str → Option Nat
  | [] => if startsW pat [] then some 0 else none
  | c :: t => if startsW pat (c :: t) then some 0 else (findIdx pat t).map (· + 1)

/-- Highest index at which pat occurs wholly inside s, none when absent
(Python str.rfind restricted to a take-bounded string). -/
def rfindIdx (pat s : Str) : Option Nat :=
  ((List.range (s.length + 1)).filter (fun j => startsW pat (s.drop j))).getLast?

/-- Python slice s[a:b] for nonnegative bounds. -/
def pySliceList (s : Str) (a b : Nat) : Str := (s.take b).drop a

/-- Fuelled worker for replaceAll; fuel bounds the number of scanning steps,
one input character is consumed per step at least, so fuel = s.length is enough. -/
def replaceFuel (pat rep : Str) : Nat → Str → Str
  | _, [] => []
  | 0, s => s
  | Nat.succ f, c :: t =>
    if !pat.isEmpty && startsW pat (c :: t) then
      rep ++ replaceFuel pat rep f (t.drop (pat.length - 1))
    else
      c :: replaceFuel pat rep f t

/-- Python str.replace: replace every non-overlapping occurrence of pat in s,
scanning left to right, never rescanning the replacement text.  The sources
never call replace with an empty pattern; an empty pattern returns s. -/
def replaceAll (s pat rep : Str) : Str := replaceFuel pat rep s.length s

/-- Does pat occur somewhere inside s? -/
def containsSubstr (s pat : Str) : Bool := (findIdx pat s).isSome

/-- Split s at the first occurrence of character c: (part before, part after);
when c is absent the whole string is the first component. -/
def splitAtFirst (c : Char) : Str → (Str × Str)
  | [] => ([], [])
  | d :: t =>
    if d == c then ([], t)
    else
      let r := splitAtFirst c t
      (d :: r.1, r.2)

/-- Python sep.join(parts). -/
def pyJoin (sep : Str) : List Str → Str
  | [] => []
  | [x] => x
  | x :: y :: t => x ++ sep ++ pyJoin sep (y :: t)

/-- Python dict insertion on an association list: replace the value at an
existing key in place, otherwise append the new pair. -/
def dictInsert : List (Str × Str) → Str → Str → List (Str × Str)
  | [], k, v => [(k, v)]
  | (k0, v0) :: t, k, v =>
    if k0 = k then (k0, v) :: t else (k0, v0) :: dictInsert t k v

/-- Lookup in an association list modelling a Python dict. -/
def lookupKV : List (Str × Str) → Str → Option Str
  | [], _ => none
  | (k0, v0) :: t, k => if k0 = k then some v0 else lookupKV t k

/-- Query component of a URL as computed by Python urlparse: the fragment
(everything from the first hash sign) is split off first, then the query is
everything after the first question mark of what remains. -/
def urlparseQuery (url : Str) : Str :=
  let noFrag := (splitAtFirst '#' url).1
  (splitAtFirst '?' noFrag).2

/-- The constant PREFIX of pack.py: the XML declaration stripped from
pre-serialized message text. -/
def XMLDECL : Str := ("<?xml version=\"1.0\" encoding=\"UTF-8\"?>").toList

/-- The constant DUMMY_NAMESPACE of pack.py. -/
def DUMMY_NAMESPACE : Str := ("http://example.org/").toList

/-- The SOAP namespace constant NAMESPACE of pack.py. -/
def SOAP_NAMESPACE : Str := ("http://schemas.xmlsoap.org/soap/envelope/").toList

/-- http_redirect_message (pack.py lines 93-120).  The message is assumed to
already be text (the isinstance branch stringifies otherwise); the
deflate-and-base64 codec enc and the percent-encoding urlenc are the external
TextCodec collaborators of the spec and are taken as parameters. -/
def http_redirect_message (enc : Str → Str) (urlenc : List (Str × Str) → Str)
    (message location relay_state typ : Str) :
    List (Str × Str) × List Str :=
  let args := [(typ, enc message)]
  let args := if relay_state ≠ [] then dictInsert args (("RelayState").toList) relay_state else args
  let glue_char := if urlparseQuery location ≠ [] then ("&").toList else ("?").toList
  let login_url := pyJoin glue_char [location, urlenc args]
  ([((("Location").toList), login_url)], [([] : Str)])

/-- Output of ElementTree.tostring (Python 2.7, encoding UTF-8) for the
envelope built by make_soap_enveloped_saml_thingy with no header parts and
the placeholder child in the body, parameterized by the namespace prefix p
the serializer allocated for the dummy namespace.  The serializer is the
external tree collaborator (spec section 6): it declares every namespace on
the root element, sorted by prefix, and auto-allocates prefixes ns0, ns1,
... in order of first use; with no header parts the soap namespace gets ns0
and the dummy namespace gets ns1, while with header parts in play the dummy
prefix can be any later nsN. -/
def serializedEnvelope (p : Str) : Str :=
  ("<?xml version=\x271.0\x27 encoding=\x27UTF-8\x27?>\n<ns0:Envelope xmlns:ns0=\"http://schemas.xmlsoap.org/soap/envelope/\" xmlns:").toList
    ++ p ++ ("=\"http://example.org/\"><ns0:Body><").toList
    ++ p ++ (":FuddleMuddle /></ns0:Body></ns0:Envelope>").toList

/-- The pre-serialized-text path of make_soap_enveloped_saml_thingy
(pack.py lines 146-158), operating on the serializer output for the
placeholder envelope:
strip the XML declaration from the message text (str.replace removes every
occurrence), locate the dummy namespace URI, scan back to the nearest
xmlns: declaration, excise exactly that declaration substring, rebuild the
placeholder tag from a fixed-width slice cut1[6:9] of the declaration, and
replace the placeholder element with the message text.  The serializer
output always contains the dummy namespace, so the none branches are
unreachable; they return the serialized text unchanged. -/
def spliceSoap (thingy serialized : Str) : Str :=
  let t := replaceAll thingy XMLDECL []
  match findIdx DUMMY_NAMESPACE serialized with
  | none => serialized
  | some i =>
    match rfindIdx (("xmlns:").toList) (serialized.take i) with
    | none => serialized
    | some j =>
      let cut1 := pySliceList serialized j (i + DUMMY_NAMESPACE.length + 1)
      let cut2 := ("<").toList ++ pySliceList cut1 6 9 ++ (":FuddleMuddle />").toList
      replaceAll (replaceAll serialized cut1 []) cut2 t

/-- make_soap_enveloped_saml_thingy (pack.py lines 125-158) on a
pre-serialized text message with no header parts: the serializer then
always allocates prefix ns0 to the soap namespace and ns1 to the dummy
namespace. -/
def make_soap_enveloped_saml_thingy (thingy : Str) : Str :=
  spliceSoap thingy (serializedEnvelope (("ns1").toList))

/-- The text of the spliced envelope that precedes the message fragment:
the serialized envelope with the dummy xmlns declaration excised, up to the
placeholder position. -/
def soapHead : Str :=
  ("<?xml version=\x271.0\x27 encoding=\x27UTF-8\x27?>\n<ns0:Envelope xmlns:ns0=\"http://schemas.xmlsoap.org/soap/envelope/\" ><ns0:Body>").toList

/-- The text of the spliced envelope that follows the message fragment. -/
def soapTail : Str := ("</ns0:Body></ns0:Envelope>").toList

/-- An ElementTree element as seen by parse_soap_enveloped_saml: a
namespace-qualified tag and the list of sub-elements in document order
(text and attributes play no role in the parsing logic). -/
inductive XmlTree where
  | elem (tag : Str) (children : List XmlTree)

/-- Tag of an element. -/
def XmlTree.tag : XmlTree → Str
  | .elem t _ => t

/-- Sub-elements of an element. -/
def XmlTree.children : XmlTree → List XmlTree
  | .elem _ c => c

/-- Failures of the SOAP decoder.  malformedEnvelope models the failed
assert on the root tag (the spec's MalformedEnvelope), wrongBodyType the
Exception raised when constructing the body object fails (the spec's
UnexpectedBodyType), unexpectedHeader the Exception raised when a Header
part arrives with no header classes supplied. -/
inductive SoapError where
  | malformedEnvelope
  | wrongBodyType (tag : Str)
  | unexpectedHeader
deriving DecidableEq

/-- A candidate header class: its namespace, its tag, and the external
class-construction collaborator for it. -/
structure HeaderClass (γ : Type) where
  c_namespace : Str
  c_tag : Str
  build : XmlTree → γ

/-- A qualified tag, Python "\x7b%s\x7d%s" of a namespace and local name. -/
def qtag (ns lname : Str) : Str := ("\x7b").toList ++ ns ++ ("\x7d").toList ++ lname

/-- The body loop of parse_soap_enveloped_saml (pack.py lines 186-191):
each sub-element of Body is constructed in document order, the body
variable is simply reassigned each time, and a failing construction
(create returning none models create_class_from_element_tree raising)
raises the wrong-body-type Exception. -/
def parseBodyParts {β : Type} (create : XmlTree → Option β) :
    Option β → List XmlTree → Except SoapError (Option β)
  | b, [] => Except.ok b
  | _, sub :: rest =>
    match create sub with
    | some v => parseBodyParts create (some v) rest
    | none => Except.error (SoapError.wrongBodyType sub.tag)

/-- Python dict insertion for the header map (replace at an existing key,
append otherwise). -/
def headerInsert {γ : Type} : List (Str × γ) → Str → γ → List (Str × γ)
  | [], k, v => [(k, v)]
  | (k0, v0) :: t, k, v =>
    if k0 = k then (k0, v) :: t else (k0, v0) :: headerInsert t k v

/-- One header sub-element (pack.py lines 196-203): the first candidate
class whose qualified tag matches builds the object, unmatched sub-elements
are silently ignored. -/
def processHeaderSub {γ : Type} (classes : List (HeaderClass γ))
    (hdr : List (Str × γ)) (sub : XmlTree) : List (Str × γ) :=
  match classes.find? (fun k => decide (sub.tag = qtag k.c_namespace k.c_tag)) with
  | some k => headerInsert hdr sub.tag (k.build sub)
  | none => hdr

/-- The loop over envelope parts (pack.py lines 183-203), carrying the
(body, header) state; parts that are neither Body nor Header are ignored. -/
def parseParts {β γ : Type} (create : XmlTree → Option β)
    (header_class : List (HeaderClass γ)) :
    Option β × List (Str × γ) → List XmlTree →
    Except SoapError (Option β × List (Str × γ))
  | st, [] => Except.ok st
  | st, part :: rest =>
    if part.tag = qtag SOAP_NAMESPACE (("Body").toList) then
      match parseBodyParts create st.1 part.children with
      | Except.ok b => parseParts create header_class (b, st.2) rest
      | Except.error e => Except.error e
    else if part.tag = qtag SOAP_NAMESPACE (("Header").toList) then
      if header_class.isEmpty then Except.error SoapError.unexpectedHeader
      else parseParts create header_class
        (st.1, part.children.foldl (processHeaderSub header_class) st.2) rest
    else parseParts create header_class st rest

/-- parse_soap_enveloped_saml (pack.py lines 171-205) on an already parsed
tree (ElementTree.fromstring is the external tree collaborator).  The
create parameter is the external class-construction collaborator for the
body class; header_class of [] models header_class=None (both are falsy in
the source). -/
def parse_soap_enveloped_saml {β γ : Type} (create : XmlTree → Option β)
    (header_class : List (HeaderClass γ)) (envelope : XmlTree) :
    Except SoapError (Option β × List (Str × γ)) :=
  if envelope.tag = qtag SOAP_NAMESPACE (("Envelope").toList) then
    parseParts create header_class (none, []) envelope.children
  else Except.error SoapError.malformedEnvelope

end Saml2Pack

namespace Saml2HttpBase

open Saml2Pack

/-- Python exceptions that the httpbase code can raise or catch.
valueError is raised by time.strptime on a malformed date (the spec's
DateFormatError), keyError by deleting a missing key from the cookie jar,
connectionError is the module's ConnectionError wrapper. -/
inductive PyExc where
  | valueError
  | keyError
  | connectionError
deriving DecidableEq

/-- A broken-down time as produced by time.strptime. -/
structure Tm where
  year : Int
  mon : Nat
  day : Nat
  hour : Nat
  minute : Nat
  sec : Nat
deriving DecidableEq

/-- Is c an ASCII digit? -/
def isDigit (c : Char) : Bool := ('0' ≤ c) && (c ≤ '9')

/-- Numeric value of an ASCII digit. -/
def dval (c : Char) : Nat := c.toNat - 48

/-- strptime %d (regex 3[01]|[12]\d|0[1-9]|[1-9]): two digits when they
form a day 1..31, else a single nonzero digit. -/
def parseDay : Str → Option (Nat × Str)
  | a :: b :: rest =>
    if isDigit a && isDigit b then
      let v := 10 * dval a + dval b
      if 1 ≤ v && v ≤ 31 then some (v, rest)
      else if 1 ≤ dval a then some (dval a, b :: rest)
      else none
    else if isDigit a && 1 ≤ dval a then some (dval a, b :: rest)
    else none
  | [a] => if isDigit a && 1 ≤ dval a then some (dval a, []) else none
  | [] => none

/-- strptime %H / %M / %S (regex like 2[0-3]|[0-1]\d|\d): two digits when
their value is at most hi, else a single digit. -/
def parseClock (hi : Nat) : Str → Option (Nat × Str)
  | a :: b :: rest =>
    if isDigit a then
      if isDigit b && 10 * dval a + dval b ≤ hi then some (10 * dval a + dval b, rest)
      else some (dval a, b :: rest)
    else none
  | [a] => if isDigit a then some (dval a, []) else none
  | [] => none

/-- strptime %Y: exactly four digits. -/
def parseY4 : Str → Option (Int × Str)
  | a :: b :: c :: d :: rest =>
    if isDigit a && isDigit b && isDigit c && isDigit d then
      some ((1000 * dval a + 100 * dval b + 10 * dval c + dval d : Int), rest)
    else none
  | _ => none

/-- strptime %y: exactly two digits, 0-68 mapping to 2000-2068 and 69-99
to 1969-1999. -/
def parseY2 : Str → Option (Int × Str)
  | a :: b :: rest =>
    if isDigit a && isDigit b then
      let v := 10 * dval a + dval b
      some ((if v ≤ 68 then 2000 + v else 1900 + v : Int), rest)
    else none
  | _ => none

/-- ASCII lowercase of a character. -/
def lowerChar (c : Char) : Char :=
  if ('A' ≤ c) && (c ≤ 'Z') then Char.ofNat (c.toNat + 32) else c

/-- ASCII lowercase of a string. -/
def lowerStr (s : Str) : Str := s.map lowerChar

/-- The abbreviated month names matched by strptime %b. -/
def monthAbbrevs : List (Str × Nat) :=
  [(("jan").toList, 1), (("feb").toList, 2), (("mar").toList, 3),
   (("apr").toList, 4), (("may").toList, 5), (("jun").toList, 6),
   (("jul").toList, 7), (("aug").toList, 8), (("sep").toList, 9),
   (("oct").toList, 10), (("nov").toList, 11), (("dec").toList, 12)]

/-- strptime %b: a case-insensitive abbreviated month name. -/
def parseMonth (s : Str) : Option (Nat × Str) :=
  match monthAbbrevs.find? (fun ab => lowerStr (s.take 3) = ab.1) with
  | some ab => some (ab.2, s.drop 3)
  | none => none

/-- Consume a literal character of the format. -/
def expectChar (c : Char) : Str → Option Str
  | [] => none
  | d :: t => if d == c then some t else none

/-- time.strptime with format "%d-%b-%Y %H:%M:%S" when fourDigitYear is
true, "%d-%b-%y %H:%M:%S" otherwise; fails (ValueError) unless the whole
string is consumed. -/
def strptimeCookie (fourDigitYear : Bool) (s : Str) : Option Tm := do
  let (d, s) ← parseDay s
  let s ← expectChar '-' s
  let (mo, s) ← parseMonth s
  let s ← expectChar '-' s
  let (y, s) ← (if fourDigitYear then parseY4 s else parseY2 s)
  let s ← expectChar ' ' s
  let (h, s) ← parseClock 23 s
  let s ← expectChar ':' s
  let (mi, s) ← parseClock 59 s
  let s ← expectChar ':' s
  let (sec, s) ← parseClock 61 s
  if s = [] then some ⟨y, mo, d, h, mi, sec⟩ else none

/-- Days since 1970-01-01 of a civil date (standard civil-from-days
inverse); all intermediate divisions act on nonnegative values here. -/
def daysFromCivil (y : Int) (m d : Nat) : Int :=
  let y2 : Int := if m ≤ 2 then y - 1 else y
  let era : Int := (if 0 ≤ y2 then y2 else y2 - 399) / 400
  let yoe : Int := y2 - era * 400
  let mp : Int := ((m : Int) + 9) % 12
  let doy : Int := (153 * mp + 2) / 5 + (d : Int) - 1
  let doe : Int := yoe * 365 + yoe / 4 - yoe / 100 + doy
  era * 146097 + doe - 719468

/-- int(time.mktime(t)).  mktime interprets the tuple in the host's local
timezone; the model fixes the timezone to UTC, which no claim observes
(claims only distinguish parse success from parse failure). -/
def tmToEpoch (t : Tm) : Int :=
  daysFromCivil t.year t.mon t.day * 86400 + t.hour * 3600 + t.minute * 60 + t.sec

/-- _since_epoch (httpbase.py lines 45-52): strip the 5-character weekday
prefix and the 4-character " GMT" suffix (Python cdate[5:-4]), try the
four-digit-year format, fall back to the two-digit-year format, raise
ValueError when neither matches. -/
def _since_epoch (cdate : Str) : Except PyExc Int :=
  let c := (cdate.take (cdate.length - 4)).drop 5
  match strptimeCookie true c with
  | some t => Except.ok (tmToEpoch t)
  | none =>
    match strptimeCookie false c with
    | some t => Except.ok (tmToEpoch t)
    | none => Except.error PyExc.valueError

/-- A dynamically typed Python value held in a cookie attribute slot. -/
inductive PyVal where
  | pnone
  | pbool (b : Bool)
  | pint (n : Int)
  | pstr (s : Str)
deriving DecidableEq

/-- Python truthiness of a PyVal. -/
def PyVal.truthy : PyVal → Bool
  | .pnone => false
  | .pbool b => b
  | .pint n => decide (n ≠ 0)
  | .pstr s => decide (s ≠ [])

/-- The std_attr dictionary of set_cookie, one field per key of the ATTRS
table (httpbase.py lines 18-34). -/
structure CookieRec where
  version : PyVal
  name : Str
  value : PyVal
  port : PyVal
  port_specified : Bool
  domain : Str
  domain_specified : Bool
  domain_initial_dot : Bool
  path : Str
  path_specified : Bool
  secure : PyVal
  expires : PyVal
  discard : Bool
  comment : PyVal
  comment_url : PyVal
  rest : Str
  rfc2109 : Bool
deriving DecidableEq

/-- A parsed Morsel of a Set-Cookie header value (Python Cookie module):
the cookie name, its coded value, and the reserved attributes, each the
empty string unless the header set it.  SimpleCookie only ever produces
string values. -/
structure Morsel where
  name : Str
  codedValue : Str
  expires : Str := []
  path : Str := []
  comment : Str := []
  domain : Str := []
  maxAge : Str := []
  secure : Str := []
  httponly : Str := []
  version : Str := []
deriving DecidableEq

/-- Unquoting of the coded value (httpbase.py lines 88-92). -/
def unquoteValue (v : Str) : Str :=
  if startsW (("\"").toList) v && endsW (("\"").toList) v then
    (v.take (v.length - 1)).drop 1
  else v

/-- std_attr after lines 86-94: the ATTRS defaults with the cookie name,
the unquoted value and version set to the integer 0. -/
def attrsInit (cookie_name : Str) (codedValue : Str) : CookieRec :=
  { version := PyVal.pint 0
    name := cookie_name
    value := PyVal.pstr (unquoteValue codedValue)
    port := PyVal.pnone
    port_specified := false
    domain := []
    domain_specified := false
    domain_initial_dot := false
    path := []
    path_specified := false
    secure := PyVal.pbool false
    expires := PyVal.pnone
    discard := true
    comment := PyVal.pnone
    comment_url := PyVal.pnone
    rest := []
    rfc2109 := true }

/-- The expires-valued branches of the attribute copy loop: both the
expires attribute (line 100) and the max-age attribute (line 105) store
_since_epoch of the attribute string into std_attr["expires"]; an empty
attribute string is falsy and is skipped. -/
def applyExpires (r : CookieRec) (s : Str) : Except PyExc CookieRec :=
  if s = [] then Except.ok r
  else
    match _since_epoch s with
    | Except.ok t => Except.ok { r with expires := PyVal.pint t }
    | Except.error e => Except.error e

/-- The plain-string part of the attribute copy loop (httpbase.py lines
96-105) over the Morsel's reserved keys.  Keys present in ATTRS (path,
comment, domain, secure, version) are copied when truthy; httponly is in
neither ATTRS nor the max-age elif and is dropped.  The iteration order of
the Python dict is unspecified; the order below is fixed and only matters
when expires and max-age are both set. -/
def copyPlainAttrs (r0 : CookieRec) (m : Morsel) : CookieRec :=
  let r1 := if m.path ≠ [] then { r0 with path := m.path } else r0
  let r2 := if m.comment ≠ [] then { r1 with comment := PyVal.pstr m.comment } else r1
  let r3 := if m.domain ≠ [] then { r2 with domain := m.domain } else r2
  let r4 := if m.secure ≠ [] then { r3 with secure := PyVal.pstr m.secure } else r3
  if m.version ≠ [] then { r4 with version := PyVal.pstr m.version } else r4

/-- The two date-valued steps of the copy loop, applied after the plain
string attributes: expires through _since_epoch (line 100), then max-age
through _since_epoch into the expires slot (line 105). -/
def copyMorselAttrs (r0 : CookieRec) (m : Morsel) : Except PyExc CookieRec :=
  match applyExpires (copyPlainAttrs r0 m) m.expires with
  | Except.error e => Except.error e
  | Except.ok r6 => applyExpires r6 m.maxAge

/-- The PAIRS loop (httpbase.py lines 107-109): set each _specified flag
when the paired attribute is truthy. -/
def applyPairs (r : CookieRec) : CookieRec :=
  let r := if PyVal.truthy r.port then { r with port_specified := true } else r
  let r := if r.domain ≠ [] then { r with domain_specified := true } else r
  let r := if r.path ≠ [] then { r with path_specified := true } else r
  r

/-- Lines 111-112: domain_initial_dot when the domain is truthy and starts
with a dot. -/
def applyInitialDot (r : CookieRec) : CookieRec :=
  if r.domain ≠ [] && startsW ((".").toList) r.domain then
    { r with domain_initial_dot := true }
  else r

/-- The record built by set_cookie for one morsel (lines 86-112), before
the max-age branch. -/
def setCookieAttrs (cookie_name : Str) (m : Morsel) : Except PyExc CookieRec :=
  match copyMorselAttrs (attrsInit cookie_name m.codedValue) m with
  | Except.ok r => Except.ok (applyInitialDot (applyPairs r))
  | Except.error e => Except.error e

/-- The cookie jar: cookielib's domain -> path -> name nested dicts,
flattened to an association list keyed by (domain, path, name). -/
abbrev Jar := List ((Str × Str × Str) × CookieRec)

/-- cookielib.CookieJar.set_cookie: insert, replacing any record at the
same key. -/
def jarInsert : Jar → (Str × Str × Str) → CookieRec → Jar
  | [], k, r => [(k, r)]
  | (k0, r0) :: t, k, r =>
    if k0 = k then (k0, r) :: t else (k0, r0) :: jarInsert t k r

/-- cookielib.CookieJar.clear(domain, path, name): delete the record at
the key, raising KeyError when it is absent. -/
def jarClear (jar : Jar) (k : Str × Str × Str) : Except PyExc Jar :=
  match jar with
  | [] => Except.error PyExc.keyError
  | (k0, r0) :: t =>
    if k0 = k then Except.ok t
    else
      match jarClear t k with
      | Except.ok t2 => Except.ok ((k0, r0) :: t2)
      | Except.error e => Except.error e

/-- The test `morsel["max-age"] is 0` (httpbase.py line 114).  A Morsel
value is always a Python str, and identity of a str with the int 0 is
always False, so the removal branch is unreachable whatever the max-age
string is. -/
def maxAgeIsIntZero (_v : Str) : Bool := false

/-- Processing of one (cookie_name, morsel) pair of set_cookie (httpbase.py
lines 85-124).  When the max-age-is-the-int-0 test were to succeed, the
jar clear call is guarded by `except ValueError: pass`, which does not
catch the KeyError that a missing key raises; otherwise a cookielib.Cookie
is built from std_attr and inserted. -/
def setCookie1 (cookie_name : Str) (m : Morsel) (jar : Jar) : Except PyExc Jar :=
  match setCookieAttrs cookie_name m with
  | Except.error e => Except.error e
  | Except.ok r =>
    if maxAgeIsIntZero m.maxAge then
      jarClear jar (r.domain, r.path, r.name)
    else
      Except.ok (jarInsert jar (r.domain, r.path, r.name) r)

/-- set_cookie over a whole parsed Set-Cookie batch (the kaka.items()
loop).  The jar is mutated in place in Python, so an exception part way
through leaves the already ingested cookies in the jar: the model returns
the jar state reached together with the exception, if any. -/
def set_cookie : List (Str × Morsel) → Jar → Jar × Option PyExc
  | [], jar => (jar, none)
  | (n, m) :: rest, jar =>
    match setCookie1 n m jar with
    | Except.ok jar2 => set_cookie rest jar2
    | Except.error e => (jar, some e)

/-- An HTTP response as the requests collaborator hands it back: the
response headers and body text. -/
structure HttpResponse where
  headers : List (Str × Str)
  body : Str
deriving DecidableEq

/-- Case-insensitive header lookup, as requests' CaseInsensitiveDict
performs it; for a missing key the requests releases this code targets
(requests 0.x, 2012) return None rather than raising. -/
def headerLookup : List (Str × Str) → Str → Option Str
  | [], _ => none
  | (k, v) :: t, key => if lowerStr k = lowerStr key then some v else headerLookup t key

/-- HTTPBase.send (httpbase.py lines 126-145).  doRequest models the
outcome of requests.request (the external transport collaborator); on a
transport exception the code re-raises the module's ConnectionError.  On a
response, r.headers["set-cookie"] is looked up (None when absent, see
headerLookup), SimpleCookie of it is parsed (the parseSC parameter models
the external Cookie module; SimpleCookie(None) yields no morsels) and
ingested via set_cookie; any ValueError or KeyError raised by the
ingestion propagates (only AttributeError is caught).  The jar is mutated
in place, so the reached jar state accompanies the outcome. -/
def send (doRequest : Except PyExc HttpResponse)
    (parseSC : Str → List (Str × Morsel)) (jar : Jar) :
    Jar × Except PyExc HttpResponse :=
  match doRequest with
  | Except.error _ => (jar, Except.error PyExc.connectionError)
  | Except.ok r =>
    let morsels :=
      match headerLookup r.headers (("set-cookie").toList) with
      | some v => parseSC v
      | none => []
    match set_cookie morsels jar with
    | (jar2, some e) => (jar2, Except.error e)
    | (jar2, none) => (jar2, Except.ok r)

/-- Result of HTTPBase.send_using_soap: nullResult models the Python None
returned when the send raised, noResponse the Python False returned on a
falsy response, parsed the object built by the SOAP response decoder
(parse_soap_enveloped_saml_response of saml2.soap, an external parameter
here).  None, False and a decoded response object are pairwise distinct
Python values. -/
inductive SoapSendResult (α : Type) where
  | nullResult
  | noResponse
  | parsed (a : α)
deriving DecidableEq

/-- HTTPBase.send_using_soap (httpbase.py lines 178-213).  encode models
make_soap_enveloped_saml_thingy on the structured request (the tree
collaborator path), signOpt the optional configured signer self.sec,
truthy the requests truthiness of a response (status below 400), parseResp
the external SOAP response decoder.  The send call is wrapped in
`except Exception: return None`, so every exception out of send yields the
null result. -/
def send_using_soap {ρ α : Type} (encode : ρ → Str) (signOpt : Option (Str → Str))
    (sign : Bool) (doRequest : Except PyExc HttpResponse)
    (parseSC : Str → List (Str × Morsel)) (jar : Jar)
    (truthy : HttpResponse → Bool) (parseResp : HttpResponse → α)
    (request : ρ) : Jar × SoapSendResult α :=
  let soap_message := encode request
  let _soap_message :=
    if sign then
      match signOpt with
      | some f => f soap_message
      | none => soap_message
    else soap_message
  match send doRequest parseSC jar with
  | (jar2, Except.error _) => (jar2, SoapSendResult.nullResult)
  | (jar2, Except.ok r) =>
    if truthy r then (jar2, SoapSendResult.parsed (parseResp r))
    else (jar2, SoapSendResult.noResponse)

end Saml2HttpBase

namespace Saml2Fixtures

open Saml2Pack Saml2HttpBase

/-- A pre-serialized SAML fragment used as concrete splice input. -/
def fragW : Str := ("<samlp:Response xmlns:samlp=\"urn:x\">ok</samlp:Response>").toList

/-- Splice output when the serializer allocated the three-character prefix
ns1 to the dummy namespace. -/
def outNs1 : Str := spliceSoap fragW (serializedEnvelope (("ns1").toList))

/-- Splice output when the serializer allocated the four-character prefix
ns10 to the dummy namespace. -/
def outNs10 : Str := spliceSoap fragW (serializedEnvelope (("ns10").toList))

/-- A message text whose XML declaration occurrence is internal, not
leading. -/
def innerDeclThingy : Str := ("<a>").toList ++ XMLDECL ++ ("</a>").toList

/-- A message text containing no XML declaration. -/
def plainThingy : Str := ("<x/>").toList

/-- Body construction collaborator used in witnesses: build the tag. -/
def createTag (t : XmlTree) : Option Str := some t.tag

/-- An element whose tag is not the SOAP Envelope. -/
def wrongRootElem : XmlTree := XmlTree.elem (("Envelope").toList) []

/-- Two body sub-elements for the multi-sub-element witness. -/
def bodySubA : XmlTree := XmlTree.elem (("\x7burn:a\x7dFirst").toList) []

/-- Second body sub-element. -/
def bodySubB : XmlTree := XmlTree.elem (("\x7burn:a\x7dSecond").toList) []

/-- Envelope with a Body holding two sub-elements. -/
def twoSubEnvelope : XmlTree :=
  XmlTree.elem (qtag SOAP_NAMESPACE (("Envelope").toList))
    [XmlTree.elem (qtag SOAP_NAMESPACE (("Body").toList)) [bodySubA, bodySubB]]

/-- A well-formed morsel with a dotted domain, as in the spec's pairing
test. -/
def morselW : Morsel :=
  { name := ("spauth").toList
    codedValue := ("xyz").toList
    domain := (".example.com").toList
    path := ("/").toList }

/-- A morsel carrying Max-Age=0, parsed by SimpleCookie as the string 0. -/
def morselMA0 : Morsel :=
  { name := ("foo").toList
    codedValue := ("bar").toList
    domain := ("example.com").toList
    path := ("/").toList
    maxAge := ("0").toList }

/-- A morsel with a well-formed expiry date. -/
def morselGood : Morsel :=
  { name := ("good").toList
    codedValue := ("1").toList
    expires := ("Wed, 06-Jun-2012 01:34:34 GMT").toList }

/-- A morsel whose expiry string matches neither accepted date pattern. -/
def morselBad : Morsel :=
  { name := ("bad").toList
    codedValue := ("2").toList
    expires := ("NOT A VALID DATE").toList }

/-- The jar record produced from morselMA0's key before its re-ingestion,
used as the pre-existing record of the zero-max-age scenario. -/
def recPre : CookieRec :=
  applyInitialDot (applyPairs (attrsInit (("foo").toList) (("bar").toList)))

/-- Key of the pre-existing record. -/
def keyPre : Str × Str × Str :=
  (("example.com").toList, ("/").toList, ("foo").toList)

/-- A jar already holding a record at morselMA0's (domain, path, name). -/
def jarPre : Jar := [(keyPre, recPre)]

/-- SimpleCookie parser stub used in transport witnesses: any header value
parses to the single well-formed morsel. -/
def parseSCW (_v : Str) : List (Str × Morsel) := [(morselW.name, morselW)]

/-- A response carrying no Set-Cookie header. -/
def respNoCookie : HttpResponse :=
  { headers := [(("Content-Type").toList, ("text/xml").toList)]
    body := ("<ok/>").toList }

/-- A response carrying a Set-Cookie header. -/
def respWithCookie : HttpResponse :=
  { headers := [(("Set-Cookie").toList, ("spauth=xyz").toList)]
    body := ("<ok/>").toList }

/-- The record set_cookie builds from morselW. -/
def recW : CookieRec :=
  { version := PyVal.pint 0
    name := ("spauth").toList
    value := PyVal.pstr (("xyz").toList)
    port := PyVal.pnone
    port_specified := false
    domain := (".example.com").toList
    domain_specified := true
    domain_initial_dot := true
    path := ("/").toList
    path_specified := true
    secure := PyVal.pbool false
    expires := PyVal.pnone
    discard := true
    comment := PyVal.pnone
    comment_url := PyVal.pnone
    rest := []
    rfc2109 := true }

/-- Jar key of recW. -/
def keyW : Str × Str × Str :=
  ((".example.com").toList, ("/").toList, ("spauth").toList)

/-- The jar after ingesting morselW into an empty jar. -/
def jarAfterW : Jar := [(keyW, recW)]

/-- Constantly false response truthiness, modelling a response whose
status makes requests treat it as falsy. -/
def truthyFalse (_r : HttpResponse) : Bool := false

/-- Response decoder stub used in transport witnesses. -/
def parseRespW (r : HttpResponse) : Str := r.body

/-- Encoder stub used in transport witnesses. -/
def encodeW (s : Str) : Str := s

end Saml2Fixtures

/-- Decidable equality of Except values, used to evaluate the models on
concrete inputs. -/
instance {ε α : Type} [DecidableEq ε] [DecidableEq α] : DecidableEq (Except ε α) := fun x y =>
  match x, y with
  | Except.ok a, Except.ok b =>
    if h : a = b then Decidable.isTrue (by rw [h]) else Decidable.isFalse (by simp [h])
  | Except.error a, Except.error b =>
    if h : a = b then Decidable.isTrue (by rw [h]) else Decidable.isFalse (by simp [h])
  | Except.ok _, Except.error _ => Decidable.isFalse (by simp)
  | Except.error _, Except.ok _ => Decidable.isFalse (by simp)

namespace Saml2Pack

/-- Helper: replace is the identity when the pattern occurs nowhere. -/
theorem replaceFuel_no_occurrence (pat rep : Str) :
    ∀ (f : Nat) (s : Str), findIdx pat s = none → replaceFuel pat rep f s = s := by
  intro f
  induction f with
  | zero => intro s _h; cases s <;> rfl
  | succ f ih =>
    intro s h
    cases s with
    | nil => rfl
    | cons c t =>
      by_cases hS : startsW pat (c :: t) = true
      · simp [findIdx, hS] at h
      · have ht : findIdx pat t = none := by
          simp [findIdx, hS] at h
          simpa using h
        simp [replaceFuel, hS, ih t ht]

/-- Helper: replaceAll is the identity when the pattern occurs nowhere. -/
theorem replaceAll_no_occurrence {pat s : Str} (rep : Str) (h : findIdx pat s = none) :
    replaceAll s pat rep = s :=
  replaceFuel_no_occurrence pat rep s.length s h

/-- Helper: when every body sub-element constructs, the body loop returns
the last constructed value (earlier values are overwritten). -/
theorem parseBodyParts_all_ok {β : Type} (create : XmlTree → Option β) :
    ∀ (subs : List XmlTree) (vals : List β) (b0 : Option β),
      subs.map create = vals.map Option.some →
      parseBodyParts create b0 subs = Except.ok (vals.foldl (fun _x v => some v) b0) := by
  intro subs
  induction subs with
  | nil =>
    intro vals b0 h
    cases vals with
    | nil => rfl
    | cons v vs => simp at h
  | cons s rest ih =>
    intro vals b0 h
    cases vals with
    | nil => simp at h
    | cons v vs =>
      simp only [List.map, List.cons.injEq] at h
      obtain ⟨h1, h2⟩ := h
      simp [parseBodyParts, h1, ih vs (some v) h2, List.foldl]

/-- Helper: folding a list into an option by keeping the newest element
yields the last element of a nonempty list. -/
theorem foldl_some_eq_getLast {β : Type} :
    ∀ (l : List β) (hl : l ≠ []) (b : Option β),
      l.foldl (fun _x v => some v) b = some (l.getLast hl) := by
  intro l
  induction l with
  | nil => intro hl; exact absurd rfl hl
  | cons v vs ih =>
    intro hl b
    cases vs with
    | nil => rfl
    | cons w ws =>
      have hvs : (w :: ws) ≠ [] := by simp
      rw [List.getLast_cons hvs]
      exact ih hvs (some v)

end Saml2Pack

namespace Saml2HttpBase

open Saml2Pack

/-- Helper: the fields observed by the pairing invariant after the
plain-attribute copy. -/
theorem copyPlainAttrs_fields (r0 : CookieRec) (m : Morsel) :
    (copyPlainAttrs r0 m).domain = (if m.domain ≠ [] then m.domain else r0.domain)
    ∧ (copyPlainAttrs r0 m).path = (if m.path ≠ [] then m.path else r0.path)
    ∧ (copyPlainAttrs r0 m).port = r0.port
    ∧ (copyPlainAttrs r0 m).domain_specified = r0.domain_specified
    ∧ (copyPlainAttrs r0 m).path_specified = r0.path_specified
    ∧ (copyPlainAttrs r0 m).port_specified = r0.port_specified
    ∧ (copyPlainAttrs r0 m).domain_initial_dot = r0.domain_initial_dot := by
  unfold copyPlainAttrs
  split_ifs <;> simp_all

/-- Helper: applyExpires touches only the expires slot. -/
theorem applyExpires_fields {r r2 : CookieRec} {s : Str}
    (h : applyExpires r s = Except.ok r2) :
    r2.domain = r.domain ∧ r2.path = r.path ∧ r2.port = r.port
    ∧ r2.domain_specified = r.domain_specified
    ∧ r2.path_specified = r.path_specified
    ∧ r2.port_specified = r.port_specified
    ∧ r2.domain_initial_dot = r.domain_initial_dot := by
  unfold applyExpires at h
  by_cases hs : s = []
  · simp only [hs, if_pos rfl] at h
    cases h
    simp
  · rw [if_neg hs] at h
    cases he : _since_epoch s with
    | ok t =>
      rw [he] at h
      cases h
      simp
    | error e =>
      rw [he] at h
      cases h

/-- Helper: membership after a jar insertion comes from the old jar or is
the new record. -/
theorem jarInsert_mem {jar : Jar} {k0 : Str × Str × Str} {r0 : CookieRec}
    {e : (Str × Str × Str) × CookieRec} (h : e ∈ jarInsert jar k0 r0) :
    e ∈ jar ∨ e = (k0, r0) := by
  induction jar with
  | nil =>
    simp only [jarInsert, List.mem_singleton] at h
    exact Or.inr h
  | cons p t ih =>
    unfold jarInsert at h
    by_cases hk : p.1 = k0
    · simp only [hk, if_pos rfl] at h
      rcases List.mem_cons.mp h with h1 | h1
      · exact Or.inr h1
      · exact Or.inl (List.mem_cons_of_mem p h1)
    · simp only [if_neg hk] at h
      rcases List.mem_cons.mp h with h1 | h1
      · exact Or.inl (by rw [h1]; exact List.mem_cons_self p t)
      · rcases ih h1 with h2 | h2
        · exact Or.inl (List.mem_cons_of_mem p h2)
        · exact Or.inr h2

/-- Helper: the PAIRS loop and the initial-dot step establish the pairing
invariant on a record whose flags start out false and whose port is None. -/
theorem pairing_after_apply (r : CookieRec) (hport : r.port = PyVal.pnone)
    (hds : r.domain_specified = false) (hps : r.path_specified = false)
    (hpx : r.port_specified = false) (hdd : r.domain_initial_dot = false) :
    ((applyInitialDot (applyPairs r)).domain_specified = true
       ↔ (applyInitialDot (applyPairs r)).domain ≠ [])
    ∧ ((applyInitialDot (applyPairs r)).path_specified = true
       ↔ (applyInitialDot (applyPairs r)).path ≠ [])
    ∧ ((applyInitialDot (applyPairs r)).port_specified = true
       ↔ PyVal.truthy (applyInitialDot (applyPairs r)).port = true)
    ∧ ((applyInitialDot (applyPairs r)).domain_initial_dot = true
       ↔ startsW ((".").toList) (applyInitialDot (applyPairs r)).domain = true) := by
  have hsw : startsW ((".").toList) ([] : Str) = false := by decide
  simp only [applyPairs, applyInitialDot, hport, PyVal.truthy]
  split_ifs <;> simp_all

end Saml2HttpBase

namespace Saml2Claims

open Saml2Pack Saml2HttpBase Saml2Fixtures

set_option maxRecDepth 400000 in
/-- Claim C1 (code-bug evidence): splice fidelity only holds for the
three-character serializer prefixes; the placeholder tag is rebuilt from
the fixed-width slice cut1[6:9], so when the serializer allocates the
four-character prefix ns10 to the dummy namespace the placeholder is never
replaced and the fragment F is absent from the output, while with prefix
ns1 the fragment is spliced verbatim and the dummy namespace leaves no
trace. -/
theorem splice_prefix_slice_bug :
    containsSubstr outNs1 fragW = true
    ∧ containsSubstr outNs1 DUMMY_NAMESPACE = false
    ∧ containsSubstr outNs10 fragW = false
    ∧ containsSubstr outNs10 (("<ns10:FuddleMuddle />").toList) = true := by
  refine ⟨?_, ?_, ?_, ?_⟩ <;> decide

/-- Claim C2 (code-bug evidence): ingesting a cookie whose max-age is the
string 0 over a jar holding a record at the same (domain, path, name) key
does not remove the record; the max-age value is fed to the date parser,
which raises ValueError, the call aborts, and the jar is unchanged.  The
removal branch itself is dead: `morsel["max-age"] is 0` compares a str
with the int 0 and is always False. -/
theorem set_cookie_max_age_zero_raises :
    set_cookie [(morselMA0.name, morselMA0)] jarPre = (jarPre, some PyExc.valueError)
    ∧ ((keyPre, recPre) ∈ jarPre)
    ∧ maxAgeIsIntZero morselMA0.maxAge = false :=
  ⟨by decide, by decide, rfl⟩

/-- Claim C3 (counterexample): a batch holding one cookie with a malformed
expiry string makes the whole set_cookie call raise ValueError; with the
bad cookie first, the remaining good cookie is never ingested either, so
the failure is not confined to the single bad cookie. -/
theorem set_cookie_bad_expiry_raises_concrete :
    set_cookie [(morselBad.name, morselBad), (morselGood.name, morselGood)] []
      = ([], some PyExc.valueError) := by decide

/-- Claim C3 (amended): a cookie whose expiry string matches neither
accepted date pattern raises the date error (ValueError) out of the whole
set_cookie call; the cookies after it in the batch are never ingested and
the jar keeps only what was ingested before the bad cookie. -/
theorem set_cookie_bad_expiry_aborts_batch (n : Str) (rest : List (Str × Morsel)) (jar : Jar) :
    set_cookie ((n, morselBad) :: rest) jar = (jar, some PyExc.valueError) := rfl

/-- Claim C5: a document whose root element is not the Envelope element of
the SOAP namespace makes parse_soap_enveloped_saml fail with the
malformed-envelope error (the failed root assert). -/
theorem parse_soap_rejects_wrong_root {β γ : Type} (create : XmlTree → Option β)
    (header_class : List (HeaderClass γ)) (env : XmlTree)
    (h : env.tag ≠ qtag SOAP_NAMESPACE (("Envelope").toList)) :
    parse_soap_enveloped_saml create header_class env
      = Except.error SoapError.malformedEnvelope := by
  unfold parse_soap_enveloped_saml
  rw [if_neg h]

/-- Witness for C5 at a root tag missing the namespace qualification. -/
theorem parse_soap_rejects_wrong_root_witness :
    wrongRootElem.tag ≠ qtag SOAP_NAMESPACE (("Envelope").toList)
    ∧ parse_soap_enveloped_saml createTag ([] : List (HeaderClass Unit)) wrongRootElem
        = Except.error SoapError.malformedEnvelope :=
  ⟨by decide, parse_soap_rejects_wrong_root createTag [] wrongRootElem (by decide)⟩

set_option maxRecDepth 400000 in
/-- Claim C6 (counterexample): an XML declaration occurring inside the
message text, not at its start, is not left in place: str.replace removes
every occurrence, so the spliced envelope contains the declaration-free
text rather than the original fragment. -/
theorem splice_inner_decl_not_preserved :
    containsSubstr (make_soap_enveloped_saml_thingy innerDeclThingy) XMLDECL = false
    ∧ containsSubstr (make_soap_enveloped_saml_thingy innerDeclThingy) innerDeclThingy = false
    ∧ containsSubstr (make_soap_enveloped_saml_thingy innerDeclThingy) (("<a></a>").toList) = true := by
  refine ⟨?_, ?_, ?_⟩ <;> decide

set_option maxRecDepth 400000 in
/-- Claim C6 (amended): the text path of the SOAP encoder removes every
occurrence of the XML declaration string from the message text, wherever
it occurs, before splicing; a message without the declaration is spliced
unchanged between the fixed envelope head and tail. -/
theorem splice_strips_all_decls (thingy : Str) :
    make_soap_enveloped_saml_thingy thingy
      = soapHead ++ replaceAll thingy XMLDECL [] ++ soapTail
    ∧ (findIdx XMLDECL thingy = none →
        make_soap_enveloped_saml_thingy thingy = soapHead ++ thingy ++ soapTail) := by
  constructor
  · rfl
  · intro h
    have h2 : make_soap_enveloped_saml_thingy thingy
        = soapHead ++ replaceAll thingy XMLDECL [] ++ soapTail := rfl
    rw [h2, replaceAll_no_occurrence [] h]

set_option maxRecDepth 400000 in
/-- Witness for C6 at a declaration-free message. -/
theorem splice_strips_all_decls_witness :
    findIdx XMLDECL plainThingy = none
    ∧ make_soap_enveloped_saml_thingy plainThingy = soapHead ++ plainThingy ++ soapTail :=
  ⟨by decide, (splice_strips_all_decls plainThingy).2 (by decide)⟩

/-- Claim C10: when the Body element holds several sub-elements and each
constructs, the decoder does not raise; each sub-element is constructed in
document order, the body variable is overwritten each time, and the value
built from the last sub-element is returned. -/
theorem parse_soap_body_last_wins {β : Type} (create : XmlTree → Option β)
    (subs : List XmlTree) (vals : List β) (hv : vals ≠ [])
    (h : subs.map create = vals.map Option.some) :
    parse_soap_enveloped_saml create ([] : List (HeaderClass Unit))
      (XmlTree.elem (qtag SOAP_NAMESPACE (("Envelope").toList))
        [XmlTree.elem (qtag SOAP_NAMESPACE (("Body").toList)) subs])
      = Except.ok (some (vals.getLast hv), ([] : List (Str × Unit))) := by
  unfold parse_soap_enveloped_saml
  simp only [XmlTree.tag, XmlTree.children, if_true]
  unfold parseParts
  simp only [XmlTree.tag, XmlTree.children, if_true]
  rw [parseBodyParts_all_ok create subs vals none h]
  rw [foldl_some_eq_getLast vals hv none]
  rfl

/-- Witness for C10 at a Body with two sub-elements. -/
theorem parse_soap_body_last_wins_witness :
    [bodySubA, bodySubB].map createTag = [bodySubA.tag, bodySubB.tag].map Option.some
    ∧ parse_soap_enveloped_saml createTag ([] : List (HeaderClass Unit)) twoSubEnvelope
        = Except.ok (some (("\x7burn:a\x7dSecond").toList), ([] : List (Str × Unit))) :=
  ⟨rfl, parse_soap_body_last_wins createTag [bodySubA, bodySubB]
    [bodySubA.tag, bodySubB.tag] (by simp) rfl⟩

end Saml2Claims

namespace Saml2Claims

open Saml2Pack Saml2HttpBase Saml2Fixtures

/-- Claim C4: in send_using_soap an exception out of the underlying send is
caught and the call returns the null result (Python None); a successful
send whose response is falsy returns the explicit no-response sentinel
(Python False), which is distinct from the null result and from every
parsed result. -/
theorem send_using_soap_sentinels {ρ α : Type} (encode : ρ → Str)
    (signOpt : Option (Str → Str)) (sign : Bool)
    (doRequest : Except PyExc HttpResponse) (parseSC : Str → List (Str × Morsel))
    (jar : Jar) (truthy : HttpResponse → Bool) (parseResp : HttpResponse → α)
    (request : ρ) :
    (∀ jar2 e, send doRequest parseSC jar = (jar2, Except.error e) →
       send_using_soap encode signOpt sign doRequest parseSC jar truthy parseResp request
         = (jar2, SoapSendResult.nullResult))
    ∧ (∀ jar2 r, send doRequest parseSC jar = (jar2, Except.ok r) → truthy r = false →
       send_using_soap encode signOpt sign doRequest parseSC jar truthy parseResp request
         = (jar2, SoapSendResult.noResponse))
    ∧ ((SoapSendResult.noResponse : SoapSendResult α) ≠ SoapSendResult.nullResult)
    ∧ (∀ a : α, (SoapSendResult.noResponse : SoapSendResult α) ≠ SoapSendResult.parsed a)
    ∧ (∀ a : α, (SoapSendResult.nullResult : SoapSendResult α) ≠ SoapSendResult.parsed a) := by
  refine ⟨?_, ?_, by simp, by simp, by simp⟩
  · intro jar2 e h
    unfold send_using_soap
    rw [h]
  · intro jar2 r h ht
    unfold send_using_soap
    rw [h]
    simp [ht]

/-- Witness for C4: a transport error yields the null result; a successful
send with a falsy response yields the no-response sentinel. -/
theorem send_using_soap_sentinels_witness :
    send (Except.error PyExc.connectionError) parseSCW [] = ([], Except.error PyExc.connectionError)
    ∧ send_using_soap encodeW none false (Except.error PyExc.connectionError) parseSCW []
        truthyFalse parseRespW (("<r/>").toList) = ([], SoapSendResult.nullResult)
    ∧ send (Except.ok respNoCookie) parseSCW [] = ([], Except.ok respNoCookie)
    ∧ truthyFalse respNoCookie = false
    ∧ send_using_soap encodeW none false (Except.ok respNoCookie) parseSCW []
        truthyFalse parseRespW (("<r/>").toList) = ([], SoapSendResult.noResponse) :=
  ⟨by decide,
   (send_using_soap_sentinels encodeW none false (Except.error PyExc.connectionError)
      parseSCW [] truthyFalse parseRespW (("<r/>").toList)).1 [] PyExc.connectionError (by decide),
   by decide, rfl,
   (send_using_soap_sentinels encodeW none false (Except.ok respNoCookie)
      parseSCW [] truthyFalse parseRespW (("<r/>").toList)).2.1 [] respNoCookie (by decide) rfl⟩

/-- Claim C7: http_redirect_message joins the encoded query parameters to
the destination with an ampersand when the destination already has a
nonempty query component and with a question mark otherwise, places the
joined URL in a Location header, carries a RelayState parameter exactly
when relay_state is nonempty, and returns an empty body. -/
theorem http_redirect_message_query_join (enc : Str → Str)
    (urlenc : List (Str × Str) → Str) (message location relay_state typ : Str)
    (hty : typ ≠ ("RelayState").toList) :
    ∃ glue args,
      http_redirect_message enc urlenc message location relay_state typ
        = ([((("Location").toList), location ++ glue ++ urlenc args)], [([] : Str)])
      ∧ (glue = ("&").toList ↔ urlparseQuery location ≠ [])
      ∧ (glue = ("?").toList ↔ urlparseQuery location = [])
      ∧ (lookupKV args (("RelayState").toList) = some relay_state ↔ relay_state ≠ [])
      ∧ lookupKV args typ = some (enc message) := by
  have hRS : ∀ v, lookupKV [(typ, enc message), ((("RelayState").toList), v)]
      (("RelayState").toList) = some v := by
    intro v
    unfold lookupKV
    rw [if_neg hty]
    unfold lookupKV
    rw [if_pos rfl]
  have hT1 : lookupKV [(typ, enc message)] typ = some (enc message) := by
    unfold lookupKV
    rw [if_pos rfl]
  have hT2 : lookupKV [(typ, enc message), ((("RelayState").toList), relay_state)] typ
      = some (enc message) := by
    unfold lookupKV
    rw [if_pos rfl]
  have hN : lookupKV [(typ, enc message)] (("RelayState").toList) = none := by
    unfold lookupKV
    rw [if_neg hty]
    rfl
  have hD : dictInsert [(typ, enc message)] (("RelayState").toList) relay_state
      = [(typ, enc message), ((("RelayState").toList), relay_state)] := by
    unfold dictInsert
    rw [if_neg hty]
    rfl
  by_cases bq : urlparseQuery location = [] <;> by_cases br : relay_state = []
  · refine ⟨("?").toList, [(typ, enc message)], ?_, ?_, ?_, by rw [hN]; simp [br], hT1⟩
    · unfold http_redirect_message
      dsimp only
      rw [if_neg (not_not_intro br), if_neg (not_not_intro bq)]
      rfl
    · simp [bq]
    · simp [bq]
  · refine ⟨("?").toList, [(typ, enc message), ((("RelayState").toList), relay_state)],
      ?_, ?_, ?_, by rw [hRS relay_state]; simp [br], hT2⟩
    · unfold http_redirect_message
      dsimp only
      rw [if_pos br, if_neg (not_not_intro bq), hD]
      rfl
    · simp [bq]
    · simp [bq]
  · refine ⟨("&").toList, [(typ, enc message)], ?_, ?_, ?_, by rw [hN]; simp [br], hT1⟩
    · unfold http_redirect_message
      dsimp only
      rw [if_neg (not_not_intro br), if_pos bq]
      rfl
    · simp [bq]
    · simp [bq]
  · refine ⟨("&").toList, [(typ, enc message), ((("RelayState").toList), relay_state)],
      ?_, ?_, ?_, by rw [hRS relay_state]; simp [br], hT2⟩
    · unfold http_redirect_message
      dsimp only
      rw [if_pos br, if_pos bq, hD]
      rfl
    · simp [bq]
    · simp [bq]

/-- Witness for C7 at the spec's two anchor destinations. -/
theorem http_redirect_message_query_join_witness :
    (("SAMLRequest").toList ≠ ("RelayState").toList)
    ∧ (∃ glue args,
        http_redirect_message encodeW (fun _a => ("Q").toList) (("m").toList)
            (("https://sp.example/acs").toList) [] (("SAMLRequest").toList)
          = ([((("Location").toList),
               (("https://sp.example/acs").toList) ++ glue ++ ("Q").toList)], [([] : Str)])
        ∧ (glue = ("&").toList ↔ urlparseQuery (("https://sp.example/acs").toList) ≠ [])
        ∧ (glue = ("?").toList ↔ urlparseQuery (("https://sp.example/acs").toList) = [])
        ∧ (lookupKV args (("RelayState").toList) = some [] ↔ ([] : Str) ≠ [])
        ∧ lookupKV args (("SAMLRequest").toList) = some (encodeW (("m").toList))) :=
  ⟨by decide,
   http_redirect_message_query_join encodeW (fun _a => ("Q").toList) (("m").toList)
     (("https://sp.example/acs").toList) [] (("SAMLRequest").toList) (by decide)⟩

/-- Claim C8: every record that set_cookie inserts into the jar satisfies
the pairing invariant: domain_specified iff the domain is nonempty,
path_specified iff the path is nonempty, port_specified iff the port is
truthy (it is always None here), and domain_initial_dot iff the domain
starts with a dot. -/
theorem set_cookie_record_pairing (cookie_name : Str) (m : Morsel) (jar jar2 : Jar)
    (key : Str × Str × Str) (rec : CookieRec)
    (h : setCookie1 cookie_name m jar = Except.ok jar2)
    (hmem : (key, rec) ∈ jar2) :
    (key, rec) ∈ jar
    ∨ ((rec.domain_specified = true ↔ rec.domain ≠ [])
       ∧ (rec.path_specified = true ↔ rec.path ≠ [])
       ∧ (rec.port_specified = true ↔ PyVal.truthy rec.port = true)
       ∧ (rec.domain_initial_dot = true ↔ startsW ((".").toList) rec.domain = true)) := by
  unfold setCookie1 at h
  cases hA : setCookieAttrs cookie_name m with
  | error e => rw [hA] at h; cases h
  | ok r =>
    rw [hA] at h
    simp only [maxAgeIsIntZero, if_neg] at h
    cases h
    rcases jarInsert_mem hmem with hold | hnew
    · exact Or.inl hold
    · right
      have hrec : rec = r := congrArg Prod.snd hnew
      subst hrec
      unfold setCookieAttrs at hA
      cases hC : copyMorselAttrs (attrsInit cookie_name m.codedValue) m with
      | error e => rw [hC] at hA; cases hA
      | ok r6 =>
        rw [hC] at hA
        cases hA
        unfold copyMorselAttrs at hC
        cases hE : applyExpires (copyPlainAttrs (attrsInit cookie_name m.codedValue) m) m.expires with
        | error e => rw [hE] at hC; cases hC
        | ok r7 =>
          rw [hE] at hC
          obtain ⟨e1, e2, e3, e4, e5, e6, e7⟩ := applyExpires_fields hC
          obtain ⟨f1, f2, f3, f4, f5, f6, f7⟩ := applyExpires_fields hE
          obtain ⟨g1, g2, g3, g4, g5, g6, g7⟩ :=
            copyPlainAttrs_fields (attrsInit cookie_name m.codedValue) m
          exact pairing_after_apply r6
            (by rw [e3, f3, g3]; rfl)
            (by rw [e4, f4, g4]; rfl)
            (by rw [e5, f5, g5]; rfl)
            (by rw [e6, f6, g6]; rfl)
            (by rw [e7, f7, g7]; rfl)

/-- Witness for C8 at a cookie with a dotted domain. -/
theorem set_cookie_record_pairing_witness :
    setCookie1 morselW.name morselW [] = Except.ok jarAfterW
    ∧ ((keyW, recW) ∈ jarAfterW)
    ∧ ((recW.domain_specified = true ↔ recW.domain ≠ [])
       ∧ (recW.path_specified = true ↔ recW.path ≠ [])
       ∧ (recW.port_specified = true ↔ PyVal.truthy recW.port = true)
       ∧ (recW.domain_initial_dot = true ↔ startsW ((".").toList) recW.domain = true)) :=
  ⟨by decide, by decide,
   (set_cookie_record_pairing morselW.name morselW [] jarAfterW keyW recW
      (by decide) (by decide)).resolve_left (by simp)⟩

/-- Claim C9: after a successful HTTP call, send ingests the response's
Set-Cookie header into the jar when the header is present, and when the
header is absent the call does not raise and returns the response
unchanged with the jar untouched. -/
theorem send_cookie_ingestion (r : HttpResponse)
    (parseSC : Str → List (Str × Morsel)) (jar : Jar) :
    (headerLookup r.headers (("set-cookie").toList) = none →
       send (Except.ok r) parseSC jar = (jar, Except.ok r))
    ∧ (∀ v jar2, headerLookup r.headers (("set-cookie").toList) = some v →
       set_cookie (parseSC v) jar = (jar2, none) →
       send (Except.ok r) parseSC jar = (jar2, Except.ok r)) := by
  constructor
  · intro h
    simp only [send]
    rw [h]
    rfl
  · intro v jar2 h hj
    simp only [send]
    rw [h, hj]

/-- Witness for C9 at a response without and a response with a Set-Cookie
header. -/
theorem send_cookie_ingestion_witness :
    headerLookup respNoCookie.headers (("set-cookie").toList) = none
    ∧ send (Except.ok respNoCookie) parseSCW [] = ([], Except.ok respNoCookie)
    ∧ headerLookup respWithCookie.headers (("set-cookie").toList) = some (("spauth=xyz").toList)
    ∧ set_cookie (parseSCW (("spauth=xyz").toList)) [] = (jarAfterW, none)
    ∧ send (Except.ok respWithCookie) parseSCW [] = (jarAfterW, Except.ok respWithCookie) :=
  ⟨by decide,
   (send_cookie_ingestion respNoCookie parseSCW []).1 (by decide),
   by decide, by decide,
   (send_cookie_ingestion respWithCookie parseSCW []).2 (("spauth=xyz").toList) jarAfterW
     (by decide) (by decide)⟩

end Saml2Claims
